import Mathlib

/-
Verification of the logger facade (package logger): a shallow embedding of
the repository's source. The facade sits on top of the zerolog structured
logging engine; zerolog itself is an external collaborator whose source is
not part of the repository, so its observable behavior is modelled from the
specification's description of it (each such definition is marked
"Modelled from the spec"). Everything else is translated directly from the
Go source files.
-/

namespace logger

/-- Severity scale of the underlying zerolog engine, as a plain integer:
trace is -1, debug 0, info 1, warn 2, error 3, fatal 4, panic 5,
noLevel 6, disabled 7. -/
abbrev ZLevel := Int

/-- zerolog TraceLevel, the default minimum level of a fresh zerolog logger
and the default process-wide global level. -/
def TraceLevel : ZLevel := -1

/-- zerolog NoLevel. -/
def zerologNoLevel : ZLevel := 6

/-- zerolog Disabled. -/
def zerologDisabled : ZLevel := 7

/-- A structured field value. The facade passes field values through to the
engine opaquely; string and integer values suffice for the claims. -/
inductive Val where
  | str : String → Val
  | int : Int → Val
deriving DecidableEq

/-- An output destination, as configured through zerolog Output: standard
output, an open file handle, a ConsoleWriter wrapping a destination, or a
MultiLevelWriter fanning out to two destinations. -/
inductive Writer where
  | stdout : Writer
  | file : Nat → Writer
  | console : Writer → Writer
  | multi : Writer → Writer → Writer
deriving DecidableEq

/-- Modelled from the spec: the state of an underlying zerolog logger, "an
opaque capability providing: emit an event at level L with message M and
field set F" — its minimum emission level, the key-value pairs permanently
attached to it, whether it stamps events with the time, and its writer. -/
structure ZerologLogger where
  level : ZLevel
  context : List (String × Val)
  timestamp : Bool
  writer : Writer
deriving DecidableEq

/-- zerolog New(w): a fresh logger writing to w, at the trace level, with
no attached fields. -/
def zerologNew (w : Writer) : ZerologLogger :=
  { level := TraceLevel, context := [], timestamp := false, writer := w }

/-- zerolog Logger.Level(lvl): a derived logger whose minimum emission
level is lvl. -/
def ZerologLogger.Level (zl : ZerologLogger) (lvl : ZLevel) : ZerologLogger :=
  { zl with level := lvl }

/-- zerolog With().Fields(kvs).Logger(): a derived logger with kvs appended
to the attached field set. -/
def ZerologLogger.withFields (zl : ZerologLogger) (kvs : List (String × Val)) : ZerologLogger :=
  { zl with context := zl.context ++ kvs }

/-- zerolog With().Timestamp().Logger(): a derived logger stamping every
event with the time. -/
def ZerologLogger.withTimestamp (zl : ZerologLogger) : ZerologLogger :=
  { zl with timestamp := true }

/-- zerolog Logger.Output(w): a derived logger writing to w. -/
def ZerologLogger.Output (zl : ZerologLogger) (w : Writer) : ZerologLogger :=
  { zl with writer := w }

/-- Process-wide state read by every emission call: the zerolog global
minimum level and the facade's two atomic flags. -/
structure Globals where
  globalLevel : ZLevel
  stacktraceEnabled : Bool
  callerEnabled : Bool
deriving DecidableEq

/-- The process-wide state at start: the zerolog global level defaults to
trace and the two facade flags start false. -/
def initGlobals : Globals :=
  { globalLevel := TraceLevel, stacktraceEnabled := false, callerEnabled := false }

/-- One attachment made to an open event, in attachment order: a captured
stack, an error value, a key-value field, or a caller location recorded
together with the frame-skip count it was computed with. -/
inductive EventField where
  | stack : EventField
  | err : String → EventField
  | field : String → Val → EventField
  | caller : Nat → EventField
deriving DecidableEq

/-- An emitted log event: its severity, the emitting logger's attached
fields, the per-call attachments in attachment order, the final message,
whether it is timestamped, and the writer it went to. -/
structure Event where
  level : ZLevel
  context : List (String × Val)
  timestamped : Bool
  entries : List EventField
  msg : String
  writer : Writer
deriving DecidableEq

/-- Control outcome of an emission call: a normal return, process
termination (Fatal), or an unwind carrying the message (Panic). -/
inductive Outcome where
  | normal : Outcome
  | exited : Outcome
  | panicked : String → Outcome
deriving DecidableEq

/-- Result of an emission call: the written event, if any (none when the
level gate suppresses it), and the control outcome. -/
structure EmitResult where
  event : Option Event
  outcome : Outcome
deriving DecidableEq

/-- Modelled from the spec: the engine's level gate — "if the Logger's
configured minimum level exceeds the requested severity, the underlying
library silently discards the event", and the global minimum level is a
floor beneath any per-logger level ("the underlying library enforces the
stricter of the two"). -/
def ZerologLogger.should (zl : ZerologLogger) (g : Globals) (lvl : ZLevel) : Bool :=
  decide (zl.level ≤ lvl) && decide (g.globalLevel ≤ lvl)

/-- Modelled from the spec: finalizing an open event (Msg) — when the gate
passes, the event is serialized and written through the configured writer;
otherwise nothing is written. -/
def finalize (zl : ZerologLogger) (g : Globals) (lvl : ZLevel)
    (entries : List EventField) (msg : String) : Option Event :=
  if zl.should g lvl then
    some { level := lvl, context := zl.context, timestamped := zl.timestamp,
           entries := entries, msg := msg, writer := zl.writer }
  else none

/-- type Level int8, the facade's severity type (values are zerolog's). -/
abbrev Level := Int

def DebugLevel : Level := 0
def InfoLevel : Level := 1
def WarnLevel : Level := 2
def ErrorLevel : Level := 3
def FatalLevel : Level := 4
def PanicLevel : Level := 5
def minAllowedLevel : Level := DebugLevel
def maxAllowedLevel : Level := PanicLevel

/-- The facade Logger: a struct owning one underlying zerolog logger. -/
structure Logger where
  l : ZerologLogger
deriving DecidableEq

/-- The Go type Option, a procedure from a Logger pointer to nothing, which
updates the pointed-to Logger in place; it is modelled as the map from the
receiver's state before the call to its state after. (It is named Opt here
because the Go name would shadow the core Option type.) -/
def Opt := Logger → Logger

/-- WithPlainText(): the returned option replaces the receiver's writer
with a human-readable console writer over stdout and assigns the derived
zerolog logger back into the receiver. -/
def WithPlainText : Opt := fun l =>
  { l := (l.l.Output (Writer.console Writer.stdout)).withFields [] }

/-- WriteToFile(f): the returned option replaces the receiver's writer with
a fan-out writer echoing to a console writer over stdout and writing to the
file f, and assigns the derived zerolog logger back into the receiver. -/
def WriteToFile (f : Nat) : Opt := fun l =>
  { l := (l.l.Output (Writer.multi (Writer.console Writer.stdout) (Writer.file f))).withFields [] }

/-- New(level, opts...): builds a fresh zerolog logger writing to stdout,
sets it to the given level, makes it stamp every event with the time, and
then applies each option in sequence to the freshly built Logger. -/
def New (level : Level) (opts : List Opt) : Logger :=
  let zl := zerologNew Writer.stdout
  let zl := zl.Level level
  let zl := zl.withTimestamp
  opts.foldl (fun l opt => opt l) { l := zl }

/-- SetGlobalLevel(level): sets the process-wide zerolog global level. -/
def SetGlobalLevel (g : Globals) (level : Level) : Globals :=
  { g with globalLevel := level }

/-- SetStacktraceEnabled(enabled): stores the stack-trace flag. -/
def SetStacktraceEnabled (g : Globals) (enabled : Bool) : Globals :=
  { g with stacktraceEnabled := enabled }

/-- SetCallerEnabled(enabled): stores the caller flag. -/
def SetCallerEnabled (g : Globals) (enabled : Bool) : Globals :=
  { g with callerEnabled := enabled }

/-- func (l *Logger) Level(level Level) *Logger: derives a zerolog logger
at the new level and returns a fresh Logger wrapping it. -/
def Logger.Level (l : Logger) (level : Level) : Logger :=
  { l := l.l.Level level }

/-- func (l *Logger) With(kvs ...interface) *Logger: derives a zerolog
logger with the key-value pairs appended to its attached field set and
returns a fresh Logger wrapping it. The variadic alternating key/value
list is modelled as a list of pairs (malformed lists are delegated to the
engine's tolerant behavior, which the spec leaves unspecified). -/
def Logger.With (l : Logger) (kvs : List (String × Val)) : Logger :=
  { l := l.l.withFields kvs }

/-- withFieldsAndCaller(event, kvs...): attaches the key-value pairs when
the list is non-empty, then, when the global caller flag is set, a caller
location computed with frame-skip count 3. -/
def withFieldsAndCaller (g : Globals) (event : List EventField)
    (kvs : List (String × Val)) : List EventField :=
  let event := if 0 < kvs.length then
      event ++ kvs.map (fun kv => EventField.field kv.1 kv.2)
    else event
  if g.callerEnabled then event ++ [EventField.caller 3] else event

/-- func (l *Logger) Debug(msg, kvs...). -/
def Logger.Debug (l : Logger) (g : Globals) (msg : String)
    (kvs : List (String × Val)) : EmitResult :=
  { event := finalize l.l g DebugLevel (withFieldsAndCaller g [] kvs) msg,
    outcome := Outcome.normal }

/-- func (l *Logger) Info(msg, kvs...). -/
def Logger.Info (l : Logger) (g : Globals) (msg : String)
    (kvs : List (String × Val)) : EmitResult :=
  { event := finalize l.l g InfoLevel (withFieldsAndCaller g [] kvs) msg,
    outcome := Outcome.normal }

/-- func (l *Logger) Warn(msg, kvs...). -/
def Logger.Warn (l : Logger) (g : Globals) (msg : String)
    (kvs : List (String × Val)) : EmitResult :=
  { event := finalize l.l g WarnLevel (withFieldsAndCaller g [] kvs) msg,
    outcome := Outcome.normal }

/-- func (l *Logger) Error(err error, msg string, kvs...): opens an event,
attaches a captured stack when the global stack-trace flag is set, then the
error value, then fields and caller, then the message. -/
def Logger.Error (l : Logger) (g : Globals) (err : String) (msg : String)
    (kvs : List (String × Val)) : EmitResult :=
  let event : List EventField := []
  let event := if g.stacktraceEnabled then event ++ [EventField.stack] else event
  let event := event ++ [EventField.err err]
  let event := withFieldsAndCaller g event kvs
  { event := finalize l.l g ErrorLevel event msg, outcome := Outcome.normal }

/-- func (l *Logger) Fatal(msg, kvs...): after the call the process
terminates. -/
def Logger.Fatal (l : Logger) (g : Globals) (msg : String)
    (kvs : List (String × Val)) : EmitResult :=
  { event := finalize l.l g FatalLevel (withFieldsAndCaller g [] kvs) msg,
    outcome := Outcome.exited }

/-- func (l *Logger) Panic(msg, kvs...): after the call control unwinds
carrying the message. -/
def Logger.Panic (l : Logger) (g : Globals) (msg : String)
    (kvs : List (String × Val)) : EmitResult :=
  { event := finalize l.l g PanicLevel (withFieldsAndCaller g [] kvs) msg,
    outcome := Outcome.panicked msg }

/-- Modelled from the spec: the context chain restricted to its logger
bindings, innermost binding first; binding extends the chain and lookup
takes the innermost binding. -/
abbrev Ctx := List ZerologLogger

/-- Modelled from the spec: the process-wide default context logger that
init() installs once at process start — the underlying logger built by
New(ErrorLevel), so error level, writing to stdout. -/
def DefaultContextLogger : ZerologLogger := (New ErrorLevel []).l

/-- Modelled from the spec: zerolog Logger.WithContext — "associates the
given Logger with the context node, returned as a new derived context
(original unmodified — contexts are immutable, extended via chaining)". -/
def zerologWithContext (zl : ZerologLogger) (ctx : Ctx) : Ctx := zl :: ctx

/-- Modelled from the spec: zerolog Ctx — "retrieves the bound Logger by
walking the context chain"; when none is bound it yields the process-wide
default installed at process start. -/
def zerologCtx (ctx : Ctx) : ZerologLogger :=
  match ctx with
  | zl :: _ => zl
  | [] => DefaultContextLogger

/-- ToContext(ctx, logger): stores the wrapped zerolog logger in the
context. -/
def ToContext (ctx : Ctx) (l : Logger) : Ctx := zerologWithContext l.l ctx

/-- FromContext(ctx): wraps the zerolog logger retrieved from the context
in a fresh facade Logger. -/
def FromContext (ctx : Ctx) : Logger := { l := zerologCtx ctx }

/-- Package-level Debug(ctx, msg, kvs...). -/
def Debug (g : Globals) (ctx : Ctx) (msg : String)
    (kvs : List (String × Val)) : EmitResult :=
  (FromContext ctx).Debug g msg kvs

/-- Package-level Info(ctx, msg, kvs...). -/
def Info (g : Globals) (ctx : Ctx) (msg : String)
    (kvs : List (String × Val)) : EmitResult :=
  (FromContext ctx).Info g msg kvs

/-- Package-level Warn(ctx, msg, kvs...). -/
def Warn (g : Globals) (ctx : Ctx) (msg : String)
    (kvs : List (String × Val)) : EmitResult :=
  (FromContext ctx).Warn g msg kvs

/-- Package-level Error(ctx, err, msg, kvs...). -/
def Error (g : Globals) (ctx : Ctx) (err : String) (msg : String)
    (kvs : List (String × Val)) : EmitResult :=
  (FromContext ctx).Error g err msg kvs

/-- Package-level Fatal(ctx, msg, kvs...). -/
def Fatal (g : Globals) (ctx : Ctx) (msg : String)
    (kvs : List (String × Val)) : EmitResult :=
  (FromContext ctx).Fatal g msg kvs

/-- Package-level Panic(ctx, msg, kvs...). -/
def Panic (g : Globals) (ctx : Ctx) (msg : String)
    (kvs : List (String × Val)) : EmitResult :=
  (FromContext ctx).Panic g msg kvs

/-- A Go error value arising from level parsing: the engine's two parse
failures, and the facade's wrapping error built with the offending string
and the original failure. -/
inductive GoError where
  | unknownLevel : String → GoError
  | outOfBoundLevel : Int → GoError
  | cannotParseLogLevel : String → GoError → GoError
deriving DecidableEq

/-- The value of a decimal digit character, if it is one. -/
def digitVal (c : Char) : Option Nat :=
  if 48 ≤ c.toNat ∧ c.toNat ≤ 57 then some (c.toNat - 48) else none

/-- Decimal reading of a non-empty digit string, most significant first. -/
def digitsToNat (cs : List Char) : Option Nat :=
  cs.foldl (fun acc c =>
    match acc, digitVal c with
    | some n, some d => some (n * 10 + d)
    | _, _ => none) (some 0)

/-- Integer reading of a string: an optional leading minus sign followed by
decimal digits (the engine accepts numeric level strings through integer
parsing). -/
def atoi (s : String) : Option Int :=
  match s.data with
  | [] => none
  | c :: cs =>
      if c = Char.ofNat 45 then
        match cs with
        | [] => none
        | _ => (digitsToNat cs).map (fun n => -(n : Int))
      else (digitsToNat (c :: cs)).map (fun n => (n : Int))

/-- Modelled from the spec: the engine's level-name parser (the spec's
"underlying library's level-name parser", which recognizes levels beyond
the facade's range, such as a trace level below debug). It accepts the
level names trace, debug, info, warn, error, fatal, panic, disabled and
the empty string, plus integer strings in the range -1..7; anything else
is a parse failure. -/
def zerologParseLevel (levelStr : String) : Except GoError ZLevel :=
  if levelStr = "trace" then Except.ok (-1)
  else if levelStr = "debug" then Except.ok 0
  else if levelStr = "info" then Except.ok 1
  else if levelStr = "warn" then Except.ok 2
  else if levelStr = "error" then Except.ok 3
  else if levelStr = "fatal" then Except.ok 4
  else if levelStr = "panic" then Except.ok 5
  else if levelStr = "disabled" then Except.ok zerologDisabled
  else if levelStr = "" then Except.ok zerologNoLevel
  else
    match atoi levelStr with
    | some i =>
        if 7 < i ∨ i < -1 then Except.error (GoError.outOfBoundLevel i)
        else Except.ok i
    | none => Except.error (GoError.unknownLevel levelStr)

/-- Result of the facade ParseLevel: the returned level, the returned error
(none models a nil error), and the side-diagnostic lines printed. -/
structure ParseResult where
  level : Level
  err : Option GoError
  printed : List String
deriving DecidableEq

/-- ParseLevel(levelStr): delegates to the engine's parser; on failure
returns ErrorLevel together with an error wrapping the offending string
and the original failure; on success clamps the parsed value into the
range minAllowedLevel..maxAllowedLevel, printing a side diagnostic when it
clamps. -/
def ParseLevel (levelStr : String) : ParseResult :=
  match zerologParseLevel levelStr with
  | Except.error e =>
      { level := ErrorLevel,
        err := some (GoError.cannotParseLogLevel levelStr e), printed := [] }
  | Except.ok zeroLevel =>
      let level : Level := zeroLevel
      if level < minAllowedLevel then
        { level := minAllowedLevel, err := none,
          printed := ["log level \"" ++ levelStr ++ "\" less than min allowed"] }
      else if level > maxAllowedLevel then
        { level := maxAllowedLevel, err := none,
          printed := ["log level \"" ++ levelStr ++ "\" greater than max allowed"] }
      else
        { level := level, err := none, printed := [] }

/-- The six facade severities. -/
inductive Sev where
  | debug
  | info
  | warn
  | error
  | fatal
  | panic
deriving DecidableEq

/-- The Level value at which each severity emits. -/
def Sev.toLevel : Sev → Level
  | Sev.debug => DebugLevel
  | Sev.info => InfoLevel
  | Sev.warn => WarnLevel
  | Sev.error => ErrorLevel
  | Sev.fatal => FatalLevel
  | Sev.panic => PanicLevel

/-- Dispatches an emission call at the given severity (the err argument is
consumed only by Error). -/
def emitAt (l : Logger) (g : Globals) (sev : Sev) (err : String)
    (msg : String) (kvs : List (String × Val)) : EmitResult :=
  match sev with
  | Sev.debug => l.Debug g msg kvs
  | Sev.info => l.Info g msg kvs
  | Sev.warn => l.Warn g msg kvs
  | Sev.error => l.Error g err msg kvs
  | Sev.fatal => l.Fatal g msg kvs
  | Sev.panic => l.Panic g msg kvs

/-- A call of func (l *Logger) Level through a pointer receiver: the method
body only reads the receiver and allocates a fresh Logger, it never assigns
through the pointer, so the receiver state after the call (first component)
is its state before; the second component is the returned Logger. -/
def Logger.LevelCall (l : Logger) (level : logger.Level) : Logger × Logger :=
  (l, l.Level level)

/-- A call of func (l *Logger) With through a pointer receiver, as a pair
of receiver state after the call and returned Logger; the body never
assigns through the pointer. -/
def Logger.WithCall (l : Logger) (kvs : List (String × Val)) : Logger × Logger :=
  (l, l.With kvs)

/-- Applying a Go Option value o to a Logger: the call o(l) returns nothing
and leaves the pointed-to Logger in state o l. -/
def applyOption (o : Opt) (l : Logger) : Logger := o l

/-- Modelled from the spec: caller-location resolution. The spec describes
the caller field as "computed by skipping a fixed number of stack frames
(3) to reach the original caller", and notes that "this fixed skip depth is
only correct when the call path has exactly this many wrapper frames". The
stack at the point withFieldsAndCaller runs is modelled as a list of frame
names, innermost first (frame 0 is withFieldsAndCaller itself); skipping k
frames yields frame k. -/
def resolveCaller (frames : List String) (skip : Nat) : Option String :=
  frames.get? skip

/-- The stack seen by withFieldsAndCaller when the user emits through a
package-level context function: three wrapper frames, then user code. -/
def contextCallFrames (method : String) (pkgFn : String)
    (userFrames : List String) : List String :=
  "withFieldsAndCaller" :: method :: pkgFn :: userFrames

/-- The stack seen by withFieldsAndCaller when the user invokes a Logger
method directly: two wrapper frames, then user code. -/
def methodCallFrames (method : String) (userFrames : List String) : List String :=
  "withFieldsAndCaller" :: method :: userFrames

/-- The per-call attachments each severity makes before finalizing: Error
prefixes an optional stack and the error value; every severity then runs
withFieldsAndCaller. -/
def entriesFor (g : Globals) (sev : Sev) (err : String)
    (kvs : List (String × Val)) : List EventField :=
  match sev with
  | Sev.error =>
      withFieldsAndCaller g
        ((if g.stacktraceEnabled then [EventField.stack] else [])
          ++ [EventField.err err]) kvs
  | _ => withFieldsAndCaller g [] kvs

theorem finalize_isSome (zl : ZerologLogger) (g : Globals) (lvl : ZLevel)
    (entries : List EventField) (msg : String) :
    (finalize zl g lvl entries msg).isSome = zl.should g lvl := by
  unfold finalize
  cases h : zl.should g lvl <;> simp [h]

theorem finalize_eq_some (zl : ZerologLogger) (g : Globals) (lvl : ZLevel)
    (entries : List EventField) (msg : String) (e : Event)
    (h : finalize zl g lvl entries msg = some e) :
    e = { level := lvl, context := zl.context, timestamped := zl.timestamp,
          entries := entries, msg := msg, writer := zl.writer } := by
  unfold finalize at h
  by_cases hs : zl.should g lvl = true
  · simp [hs] at h
    exact h.symm
  · simp [hs] at h

theorem emitAt_event (l : Logger) (g : Globals) (sev : Sev) (err : String)
    (msg : String) (kvs : List (String × Val)) :
    (emitAt l g sev err msg kvs).event
      = finalize l.l g sev.toLevel (entriesFor g sev err kvs) msg := by
  cases sev <;> rfl

theorem emitAt_context (l : Logger) (g : Globals) (sev : Sev) (err msg : String)
    (kvs : List (String × Val)) (e : Event)
    (he : (emitAt l g sev err msg kvs).event = some e) :
    e.context = l.l.context := by
  rw [emitAt_event] at he
  rw [finalize_eq_some _ _ _ _ _ _ he]

theorem emitAt_entries (l : Logger) (g : Globals) (sev : Sev) (err msg : String)
    (kvs : List (String × Val)) (e : Event)
    (he : (emitAt l g sev err msg kvs).event = some e) :
    e.entries = entriesFor g sev err kvs := by
  rw [emitAt_event] at he
  rw [finalize_eq_some _ _ _ _ _ _ he]

theorem withFieldsAndCaller_append (g : Globals) (ev : List EventField)
    (kvs : List (String × Val)) :
    withFieldsAndCaller g ev kvs = ev ++ withFieldsAndCaller g [] kvs := by
  unfold withFieldsAndCaller
  by_cases hk : 0 < kvs.length <;> by_cases hc : g.callerEnabled = true <;>
    simp [hk, hc]

theorem Sev.toLevel_nonneg (s : Sev) : 0 ≤ s.toLevel := by
  cases s <;> decide

theorem stack_mem_entriesFor_iff (g : Globals) (sev : Sev) (err : String)
    (kvs : List (String × Val)) :
    EventField.stack ∈ entriesFor g sev err kvs
      ↔ (sev = Sev.error ∧ g.stacktraceEnabled = true) := by
  cases sev <;> simp only [entriesFor] <;>
    (by_cases hk : 0 < kvs.length <;> by_cases hc : g.callerEnabled = true <;>
      by_cases hst : g.stacktraceEnabled = true <;>
      simp [withFieldsAndCaller, hk, hc, hst])

theorem caller_mem_entriesFor_iff (g : Globals) (sev : Sev) (err : String)
    (kvs : List (String × Val)) :
    (∃ k, EventField.caller k ∈ entriesFor g sev err kvs)
      ↔ g.callerEnabled = true := by
  cases sev <;> simp only [entriesFor] <;>
    (by_cases hk : 0 < kvs.length <;> by_cases hc : g.callerEnabled = true <;>
      by_cases hst : g.stacktraceEnabled = true <;>
      simp [withFieldsAndCaller, hk, hc, hst])

theorem wfc_ends_with_caller (g : Globals) (ev : List EventField)
    (kvs : List (String × Val)) (hc : g.callerEnabled = true) :
    withFieldsAndCaller g ev kvs
      = (if 0 < kvs.length then
           ev ++ kvs.map (fun kv => EventField.field kv.1 kv.2)
         else ev) ++ [EventField.caller 3] := by
  show (if g.callerEnabled = true then
          (if 0 < kvs.length then
             ev ++ kvs.map (fun kv => EventField.field kv.1 kv.2)
           else ev) ++ [EventField.caller 3]
        else (if 0 < kvs.length then
             ev ++ kvs.map (fun kv => EventField.field kv.1 kv.2)
           else ev))
      = (if 0 < kvs.length then
           ev ++ kvs.map (fun kv => EventField.field kv.1 kv.2)
         else ev) ++ [EventField.caller 3]
  rw [if_pos hc]

theorem entriesFor_getLast (g : Globals) (sev : Sev) (err : String)
    (kvs : List (String × Val)) (hc : g.callerEnabled = true) :
    (entriesFor g sev err kvs).getLast? = some (EventField.caller 3) := by
  cases sev <;> simp only [entriesFor] <;>
    rw [wfc_ends_with_caller g _ kvs hc] <;>
    exact List.getLast?_concat _

/-- C1: for every pair of severities s1 strictly below s2 in the ordered
set debug, info, warn, error, fatal, panic, a Logger whose configured
minimum level is that of s2 writes nothing for an emission call at s1 and
writes an event for an emission call at any severity s3 at or above s2
(the zerolog global level at its default). -/
theorem level_gate_suppresses_below_and_emits_at_or_above
    (s1 s2 s3 : Sev) (l : Logger) (st ca : Bool) (err msg : String)
    (kvs : List (String × Val))
    (hl : l.l.level = s2.toLevel)
    (h12 : s1.toLevel < s2.toLevel)
    (h23 : s2.toLevel ≤ s3.toLevel) :
    (emitAt l (⟨TraceLevel, st, ca⟩ : Globals) s1 err msg kvs).event = none
    ∧ ((emitAt l (⟨TraceLevel, st, ca⟩ : Globals) s3 err msg kvs).event).isSome = true := by
  constructor
  · have hnot : ¬ (l.l.level ≤ s1.toLevel) := by
      rw [hl]
      exact not_le.mpr h12
    have hgate : l.l.should (⟨TraceLevel, st, ca⟩ : Globals) s1.toLevel = false := by
      unfold ZerologLogger.should
      simp [hnot]
    rw [emitAt_event]
    unfold finalize
    simp [hgate]
  · have h0 : (0:Int) ≤ s3.toLevel := Sev.toLevel_nonneg s3
    have hgate : l.l.should (⟨TraceLevel, st, ca⟩ : Globals) s3.toLevel = true := by
      unfold ZerologLogger.should
      simp only [Bool.and_eq_true, decide_eq_true_eq]
      constructor
      · rw [hl]
        exact h23
      · show TraceLevel ≤ s3.toLevel
        exact le_trans (by decide : TraceLevel ≤ 0) h0
    rw [emitAt_event, finalize_isSome, hgate]

/-- C1 witness: a Logger built by New at InfoLevel suppresses a Debug call
and emits an Info call. -/
theorem level_gate_witness :
    (New InfoLevel []).l.level = Sev.toLevel Sev.info
    ∧ Sev.toLevel Sev.debug < Sev.toLevel Sev.info
    ∧ Sev.toLevel Sev.info ≤ Sev.toLevel Sev.info
    ∧ ((emitAt (New InfoLevel []) (⟨TraceLevel, false, false⟩ : Globals)
          Sev.debug "e" "m" []).event = none
       ∧ ((emitAt (New InfoLevel []) (⟨TraceLevel, false, false⟩ : Globals)
          Sev.info "e" "m" []).event).isSome = true) :=
  ⟨by decide, by decide, by decide,
   level_gate_suppresses_below_and_emits_at_or_above Sev.debug Sev.info Sev.info
     (New InfoLevel []) false false "e" "m" [] (by decide) (by decide) (by decide)⟩

/-- C2 counterexample: applying the plain-text output option to a Logger
does not leave it unaffected and does not return a new instance — the
receiver state changes, and an emission through the receiver afterwards
differs from an emission before. -/
theorem output_option_mutates_receiver :
    applyOption WithPlainText (New DebugLevel []) ≠ New DebugLevel []
    ∧ ((applyOption WithPlainText (New DebugLevel [])).Debug initGlobals "m" []).event
        ≠ ((New DebugLevel []).Debug initGlobals "m" []).event := by
  exact ⟨by decide, by decide⟩

/-- C2 amended: With and Level return a new Logger instance and leave the
receiver unchanged, so events emitted through the original behave exactly
as before the call; an output option instead updates in place the Logger
it is applied to, and New applies its options only to the Logger it has
just constructed. -/
theorem with_level_leave_original_unaffected
    (l : Logger) (level : Level) (kvs kvs2 : List (String × Val))
    (g : Globals) (sev : Sev) (err msg : String) :
    (l.LevelCall level).1 = l
    ∧ (l.WithCall kvs).1 = l
    ∧ emitAt (l.LevelCall level).1 g sev err msg kvs2 = emitAt l g sev err msg kvs2
    ∧ emitAt (l.WithCall kvs).1 g sev err msg kvs2 = emitAt l g sev err msg kvs2
    ∧ ((l.LevelCall level).2).l.level = level
    ∧ ((l.WithCall kvs).2).l.context = l.l.context ++ kvs
    ∧ (∀ (lvl : Level) (opts : List Opt),
        New lvl opts = opts.foldl (fun acc o => applyOption o acc) (New lvl [])) :=
  ⟨rfl, rfl, rfl, rfl, rfl, rfl, fun _ _ => rfl⟩

/-- C3: when the underlying parser accepts a name whose value lies below
DebugLevel or above PanicLevel, ParseLevel returns the nearest bound with
no error, printing only a side diagnostic. -/
theorem parseLevel_clamps_out_of_range
    (s : String) (v : ZLevel)
    (hok : zerologParseLevel s = Except.ok v) :
    (v < DebugLevel →
      ParseLevel s = (⟨DebugLevel, none,
        ["log level \"" ++ s ++ "\" less than min allowed"]⟩ : ParseResult))
    ∧ (PanicLevel < v →
      ParseLevel s = (⟨PanicLevel, none,
        ["log level \"" ++ s ++ "\" greater than max allowed"]⟩ : ParseResult)) := by
  have hP : ParseLevel s
      = (if v < minAllowedLevel then
           (⟨minAllowedLevel, none,
              ["log level \"" ++ s ++ "\" less than min allowed"]⟩ : ParseResult)
         else if v > maxAllowedLevel then
           (⟨maxAllowedLevel, none,
              ["log level \"" ++ s ++ "\" greater than max allowed"]⟩ : ParseResult)
         else (⟨v, none, []⟩ : ParseResult)) := by
    unfold ParseLevel
    rw [hok]
  constructor
  · intro hv
    rw [hP, if_pos (show v < minAllowedLevel from hv)]
    rfl
  · intro hv
    have hv5 : (5 : Int) < v := hv
    have h1 : ¬ (v < minAllowedLevel) :=
      not_lt.mpr (le_of_lt (lt_of_le_of_lt (by decide : (0 : Int) ≤ 5) hv5))
    have h2 : v > maxAllowedLevel := hv
    rw [hP, if_neg h1, if_pos h2]
    rfl

/-- C3 witness: parsing trace, which the underlying parser accepts with a
value below DebugLevel, yields DebugLevel and no error. -/
theorem parseLevel_clamps_witness :
    zerologParseLevel "trace" = Except.ok (-1)
    ∧ ParseLevel "trace" = (⟨DebugLevel, none,
        ["log level \"" ++ "trace" ++ "\" less than min allowed"]⟩ : ParseResult) :=
  ⟨rfl, (parseLevel_clamps_out_of_range "trace" (-1) rfl).1 (by decide)⟩

/-- C4: when the underlying parser rejects the string, ParseLevel returns
ErrorLevel — a fixed, non-zero value — together with a non-nil error
wrapping the offending string and the original failure. -/
theorem parseLevel_failure_returns_errorLevel
    (s : String) (e : GoError)
    (herr : zerologParseLevel s = Except.error e) :
    ParseLevel s = (⟨ErrorLevel,
        some (GoError.cannotParseLogLevel s e), []⟩ : ParseResult)
    ∧ ErrorLevel = 3 ∧ ErrorLevel ≠ 0 := by
  refine ⟨?_, rfl, by decide⟩
  unfold ParseLevel
  rw [herr]

/-- C4 witness: parsing verbose fails in the underlying parser and yields
ErrorLevel with a wrapping error. -/
theorem parseLevel_failure_witness :
    zerologParseLevel "verbose" = Except.error (GoError.unknownLevel "verbose")
    ∧ (ParseLevel "verbose" = (⟨ErrorLevel,
        some (GoError.cannotParseLogLevel "verbose"
          (GoError.unknownLevel "verbose")), []⟩ : ParseResult)
       ∧ ErrorLevel = 3 ∧ ErrorLevel ≠ 0) :=
  ⟨rfl, parseLevel_failure_returns_errorLevel "verbose"
    (GoError.unknownLevel "verbose") rfl⟩

/-- C5: every event emitted, at any severity, through
l.With(k1,v1).With(k2,v2) carries both pairs among its attached fields,
appended after any previously attached fields with k1 before k2. -/
theorem with_chain_accumulates_fields
    (l : Logger) (g : Globals) (k1 k2 : String) (v1 v2 : Val)
    (sev : Sev) (err msg : String) (kvs : List (String × Val)) (e : Event)
    (he : (emitAt ((l.With [(k1, v1)]).With [(k2, v2)]) g sev err msg kvs).event
            = some e) :
    e.context = l.l.context ++ [(k1, v1), (k2, v2)]
    ∧ (k1, v1) ∈ e.context ∧ (k2, v2) ∈ e.context
    ∧ e.context.drop l.l.context.length = [(k1, v1), (k2, v2)] := by
  have hc := emitAt_context _ _ _ _ _ _ _ he
  have hctx : ((l.With [(k1, v1)]).With [(k2, v2)]).l.context
      = l.l.context ++ [(k1, v1), (k2, v2)] := by
    show (l.l.context ++ [(k1, v1)]) ++ [(k2, v2)]
        = l.l.context ++ [(k1, v1), (k2, v2)]
    rw [List.append_assoc]
    rfl
  rw [hctx] at hc
  refine ⟨hc, ?_, ?_, ?_⟩
  · rw [hc]; simp
  · rw [hc]; simp
  · rw [hc]; exact List.drop_left _ _

/-- C5 witness: a concrete chained With on a fresh Logger at DebugLevel
produces an Info event carrying both fields in order. -/
theorem with_chain_witness :
    ((emitAt (((New DebugLevel []).With [("a", Val.str "x")]).With
        [("b", Val.str "y")]) initGlobals Sev.info "e" "m" []).event
      = some { level := InfoLevel, context := [("a", Val.str "x"), ("b", Val.str "y")],
               timestamped := true, entries := [], msg := "m", writer := Writer.stdout })
    ∧ ({ level := InfoLevel, context := [("a", Val.str "x"), ("b", Val.str "y")],
         timestamped := true, entries := [], msg := "m",
         writer := Writer.stdout } : Event).context
        = (New DebugLevel []).l.context ++ [("a", Val.str "x"), ("b", Val.str "y")] :=
  ⟨by decide,
   (with_chain_accumulates_fields (New DebugLevel []) initGlobals "a" "b"
      (Val.str "x") (Val.str "y") Sev.info "e" "m" []
      { level := InfoLevel, context := [("a", Val.str "x"), ("b", Val.str "y")],
        timestamped := true, entries := [], msg := "m", writer := Writer.stdout }
      (by decide)).1⟩

/-- C6: a stack attachment appears on an emitted event exactly when the
event has Error severity and the stack-trace flag is set at the time of
the call, and when it appears it precedes the error value (the other five
severities never carry one). -/
theorem stack_only_on_error
    (l : Logger) (g : Globals) (sev : Sev) (err msg : String)
    (kvs : List (String × Val)) (e : Event)
    (he : (emitAt l g sev err msg kvs).event = some e) :
    (EventField.stack ∈ e.entries ↔ (sev = Sev.error ∧ g.stacktraceEnabled = true))
    ∧ (sev = Sev.error → g.stacktraceEnabled = true →
        e.entries = EventField.stack :: EventField.err err
          :: withFieldsAndCaller g [] kvs) := by
  have hent := emitAt_entries _ _ _ _ _ _ _ he
  constructor
  · rw [hent]
    exact stack_mem_entriesFor_iff g sev err kvs
  · intro hsev hst
    subst hsev
    rw [hent]
    have hpre : entriesFor g Sev.error err kvs
        = withFieldsAndCaller g ([EventField.stack] ++ [EventField.err err]) kvs := by
      simp [entriesFor, hst]
    rw [hpre, withFieldsAndCaller_append]
    rfl

/-- C6 witness: an Error call with the stack flag set emits an event whose
attachments are the stack and then the error value; the iff holds there. -/
theorem stack_only_on_error_witness :
    ((emitAt (New DebugLevel [])
        { globalLevel := TraceLevel, stacktraceEnabled := true,
          callerEnabled := false } Sev.error "boom" "m" []).event
      = some { level := ErrorLevel, context := [], timestamped := true,
               entries := [EventField.stack, EventField.err "boom"], msg := "m",
               writer := Writer.stdout })
    ∧ (EventField.stack ∈
        ({ level := ErrorLevel, context := [], timestamped := true,
           entries := [EventField.stack, EventField.err "boom"], msg := "m",
           writer := Writer.stdout } : Event).entries
       ↔ (Sev.error = Sev.error
          ∧ ({ globalLevel := TraceLevel, stacktraceEnabled := true,
               callerEnabled := false } : Globals).stacktraceEnabled = true)) :=
  ⟨by decide,
   (stack_only_on_error (New DebugLevel [])
      { globalLevel := TraceLevel, stacktraceEnabled := true, callerEnabled := false }
      Sev.error "boom" "m" []
      { level := ErrorLevel, context := [], timestamped := true,
        entries := [EventField.stack, EventField.err "boom"], msg := "m",
        writer := Writer.stdout } (by decide)).1⟩

/-- C7 counterexample: with the caller flag set, a direct Logger.Info
invocation attaches the caller location with frame-skip 3, but a direct
method call has only two wrapper frames above user code, so skipping 3
frames resolves one frame above the direct call site, not to it. -/
theorem caller_skip_overshoots_on_direct_method_call :
    ((Logger.Info (New DebugLevel [])
        { globalLevel := TraceLevel, stacktraceEnabled := false, callerEnabled := true }
        "m" []).event
      = some { level := InfoLevel, context := [], timestamped := true,
               entries := [EventField.caller 3], msg := "m", writer := Writer.stdout })
    ∧ resolveCaller (methodCallFrames "Info" ["directCallSite", "outerFrame"]) 3
        = some "outerFrame"
    ∧ resolveCaller (methodCallFrames "Info" ["directCallSite", "outerFrame"]) 3
        ≠ some "directCallSite" :=
  ⟨by decide, by decide, by decide⟩

/-- C7 amended: an emitted event carries a caller attachment exactly when
the caller flag is set at the time of the call, recorded with frame-skip
3 as the last attachment; skipping 3 frames reaches the direct call site
of a package-level context function (three wrapper frames) but resolves
one frame above the direct call site of a directly invoked Logger method
(two wrapper frames). -/
theorem caller_flag_and_skip
    (l : Logger) (g : Globals) (sev : Sev) (err msg : String)
    (kvs : List (String × Val)) (e : Event)
    (he : (emitAt l g sev err msg kvs).event = some e) :
    ((∃ k, EventField.caller k ∈ e.entries) ↔ g.callerEnabled = true)
    ∧ (g.callerEnabled = true → e.entries.getLast? = some (EventField.caller 3))
    ∧ (∀ method pkgFn userFrames,
        resolveCaller (contextCallFrames method pkgFn userFrames) 3
          = userFrames.head?)
    ∧ (∀ method userFrames,
        resolveCaller (methodCallFrames method userFrames) 3
          = userFrames.tail.head?) := by
  have hent := emitAt_entries _ _ _ _ _ _ _ he
  refine ⟨?_, ?_, ?_, ?_⟩
  · rw [hent]
    exact caller_mem_entriesFor_iff g sev err kvs
  · intro hc
    rw [hent]
    exact entriesFor_getLast g sev err kvs hc
  · intro method pkgFn userFrames
    cases userFrames <;> rfl
  · intro method userFrames
    cases userFrames with
    | nil => rfl
    | cons a t => cases t <;> rfl

/-- C7 amended witness: an Info event emitted with the caller flag set
carries the caller attachment with skip 3; the frame arithmetic holds on
concrete stacks. -/
theorem caller_flag_and_skip_witness :
    ((emitAt (New DebugLevel [])
        { globalLevel := TraceLevel, stacktraceEnabled := false,
          callerEnabled := true } Sev.info "e" "m" []).event
      = some { level := InfoLevel, context := [], timestamped := true,
               entries := [EventField.caller 3], msg := "m", writer := Writer.stdout })
    ∧ ((∃ k, EventField.caller k ∈
          ({ level := InfoLevel, context := [], timestamped := true,
             entries := [EventField.caller 3], msg := "m",
             writer := Writer.stdout } : Event).entries)
        ↔ ({ globalLevel := TraceLevel, stacktraceEnabled := false,
             callerEnabled := true } : Globals).callerEnabled = true) :=
  ⟨by decide,
   (caller_flag_and_skip (New DebugLevel [])
      { globalLevel := TraceLevel, stacktraceEnabled := false, callerEnabled := true }
      Sev.info "e" "m" []
      { level := InfoLevel, context := [], timestamped := true,
        entries := [EventField.caller 3], msg := "m", writer := Writer.stdout }
      (by decide)).1⟩

/-- C8: on a context with no bound logger, FromContext returns a Logger
wrapping the process-wide default installed at process start — built by
New(ErrorLevel), so error level writing to stdout — and emission calls on
it return without panicking (Fatal terminates, and only the Panic
severity unwinds, by design, on every Logger). -/
theorem fromContext_default_logger :
    FromContext ([] : Ctx) = { l := DefaultContextLogger }
    ∧ DefaultContextLogger = (New ErrorLevel []).l
    ∧ DefaultContextLogger.level = ErrorLevel
    ∧ DefaultContextLogger.writer = Writer.stdout
    ∧ (∀ (g : Globals) (msg err : String) (kvs : List (String × Val)),
        ((FromContext ([] : Ctx)).Debug g msg kvs).outcome = Outcome.normal
        ∧ ((FromContext ([] : Ctx)).Info g msg kvs).outcome = Outcome.normal
        ∧ ((FromContext ([] : Ctx)).Warn g msg kvs).outcome = Outcome.normal
        ∧ ((FromContext ([] : Ctx)).Error g err msg kvs).outcome = Outcome.normal
        ∧ ((FromContext ([] : Ctx)).Fatal g msg kvs).outcome = Outcome.exited) :=
  ⟨rfl, rfl, by decide, by decide,
   fun _ _ _ _ => ⟨rfl, rfl, rfl, rfl, rfl⟩⟩

/-- C9: each package-level context function is pure forwarding to the
corresponding method on FromContext(ctx) with the same arguments. -/
theorem package_functions_forward
    (g : Globals) (ctx : Ctx) (err msg : String)
    (kvs : List (String × Val)) :
    Debug g ctx msg kvs = (FromContext ctx).Debug g msg kvs
    ∧ Info g ctx msg kvs = (FromContext ctx).Info g msg kvs
    ∧ Warn g ctx msg kvs = (FromContext ctx).Warn g msg kvs
    ∧ Error g ctx err msg kvs = (FromContext ctx).Error g err msg kvs
    ∧ Fatal g ctx msg kvs = (FromContext ctx).Fatal g msg kvs
    ∧ Panic g ctx msg kvs = (FromContext ctx).Panic g msg kvs :=
  ⟨rfl, rfl, rfl, rfl, rfl, rfl⟩

/-- C10: binding then retrieving round-trips — FromContext after ToContext
yields a Logger wrapping the same underlying logger as the one bound, the
innermost binding shadowing any outer binding already in the context. -/
theorem fromContext_toContext_roundtrip (ctx : Ctx) (l : Logger) :
    FromContext (ToContext ctx l) = { l := l.l } :=
  rfl

end logger
